import Mathlib

/-!
Verification of the GitHub webhook receiver (`src/routes/webhook.js`).

The handler is embedded shallowly as a pure function from the configured
crawler service, the webhook secret, a timestamp and the incoming request to
the ordered list of observable actions it performs (log lines, the enqueue
call with its settled result, the HTTP response, or a thrown error).  The
HMAC-SHA1 signature computation done by Node's `crypto` module is embedded
as an executable Lean implementation of SHA-1 and HMAC over byte lists,
validated below against the standard test vectors.
-/

set_option maxRecDepth 100000

namespace Webhook

/-! ## SHA-1 and HMAC-SHA1 over byte lists

Bytes are natural numbers; 32-bit machine arithmetic is modelled by reducing
modulo `2 ^ 32` wherever the corresponding machine operation would overflow.
This embeds `crypto.createHmac('sha1', secret).update(data).digest('hex')`
from line 34 of `webhook.js`. -/

/-- Truncate to a 32-bit word. -/
def w32 (n : Nat) : Nat := n % 4294967296

/-- Left rotation of a 32-bit word by `n` bits. -/
def rotl (n x : Nat) : Nat := w32 ((x <<< n) ||| (x >>> (32 - n)))

/-- Assemble a big-endian 32-bit word from four bytes. -/
def bytesToWord (a b c d : Nat) : Nat :=
  ((a % 256) <<< 24) ||| ((b % 256) <<< 16) ||| ((c % 256) <<< 8) ||| (d % 256)

/-- Group a byte list into big-endian 32-bit words (discarding a ragged tail;
the input is always block-aligned when used). -/
def wordsOfBytes : List Nat → List Nat
  | a :: b :: c :: d :: rest => bytesToWord a b c d :: wordsOfBytes rest
  | _ => []

/-- Big-endian 8-byte encoding of a 64-bit value. -/
def be64 (n : Nat) : List Nat :=
  [(n >>> 56) % 256, (n >>> 48) % 256, (n >>> 40) % 256, (n >>> 32) % 256,
   (n >>> 24) % 256, (n >>> 16) % 256, (n >>> 8) % 256, n % 256]

/-- Big-endian 4-byte encoding of a 32-bit word. -/
def be32 (n : Nat) : List Nat :=
  [(n >>> 24) % 256, (n >>> 16) % 256, (n >>> 8) % 256, n % 256]

/-- MD-strengthening padding: append `0x80`, zeros, and the 64-bit bit length,
reaching a multiple of 64 bytes. -/
def sha1Pad (msg : List Nat) : List Nat :=
  let l := msg.length
  let zeros := (64 - ((l + 9) % 64)) % 64
  msg ++ [128] ++ List.replicate zeros 0 ++ be64 ((8 * l) % 18446744073709551616)

/-- Split a byte list into 64-byte blocks, structurally via a fuel argument
bounding the number of blocks. -/
def toBlocksAux : Nat → List Nat → List (List Nat)
  | 0, _ => []
  | _, [] => []
  | fuel + 1, x :: xs => (x :: xs.take 63) :: toBlocksAux fuel (xs.drop 63)

/-- Split a byte list into 64-byte blocks. -/
def toBlocks (l : List Nat) : List (List Nat) := toBlocksAux l.length l

/-- Extend the 16 message words of a block, keeping the schedule reversed:
each new word is `rotl1 (w[t-3] xor w[t-8] xor w[t-14] xor w[t-16])`. -/
def extendLoop : Nat → List Nat → List Nat
  | 0, rev => rev
  | n + 1, rev =>
      let w := rotl 1 ((rev.getD 2 0) ^^^ (rev.getD 7 0) ^^^ (rev.getD 13 0) ^^^ (rev.getD 15 0))
      extendLoop n (w :: rev)

/-- The 80-word SHA-1 message schedule of one 64-byte block. -/
def schedule (block : List Nat) : List Nat :=
  (extendLoop 64 (wordsOfBytes block).reverse).reverse

/-- One round of the SHA-1 compression function; `t` is the round index and
`w` the scheduled word. -/
def sha1Round (st : Nat × Nat × Nat × Nat × Nat) (t w : Nat) :
    Nat × Nat × Nat × Nat × Nat :=
  let (a, b, c, d, e) := st
  let f :=
    if t < 20 then (b &&& c) ||| ((4294967295 ^^^ b) &&& d)
    else if t < 40 then b ^^^ c ^^^ d
    else if t < 60 then (b &&& c) ||| (b &&& d) ||| (c &&& d)
    else b ^^^ c ^^^ d
  let k :=
    if t < 20 then 1518500249
    else if t < 40 then 1859775393
    else if t < 60 then 2400959708
    else 3395469782
  let temp := w32 (rotl 5 a + f + e + k + w)
  (temp, a, rotl 30 b, c, d)

/-- Compress one 64-byte block into the running five-word state. -/
def sha1Compress (h : Nat × Nat × Nat × Nat × Nat) (block : List Nat) :
    Nat × Nat × Nat × Nat × Nat :=
  let (h0, h1, h2, h3, h4) := h
  let fin := ((List.range 80).zip (schedule block)).foldl
    (fun st p => sha1Round st p.1 p.2) (h0, h1, h2, h3, h4)
  let (a, b, c, d, e) := fin
  (w32 (h0 + a), w32 (h1 + b), w32 (h2 + c), w32 (h3 + d), w32 (h4 + e))

/-- SHA-1 of a byte list, as a 20-byte list. -/
def sha1 (msg : List Nat) : List Nat :=
  let st := (toBlocks (sha1Pad msg)).foldl sha1Compress
    (1732584193, 4023233417, 2562383102, 271733878, 3285377520)
  be32 st.1 ++ be32 st.2.1 ++ be32 st.2.2.1 ++ be32 st.2.2.2.1 ++ be32 st.2.2.2.2

/-- HMAC-SHA1 (RFC 2104) of a message under a key, as a 20-byte list. -/
def hmacSha1 (key msg : List Nat) : List Nat :=
  let k0 := if 64 < key.length then sha1 key else key
  let k := k0 ++ List.replicate (64 - k0.length) 0
  let ipad := k.map (fun b => b ^^^ 54)
  let opad := k.map (fun b => b ^^^ 92)
  sha1 (opad ++ sha1 (ipad ++ msg))

/-- Lowercase hexadecimal digit for a value below 16. -/
def hexDigit (n : Nat) : Char :=
  if n < 10 then Char.ofNat (48 + n) else Char.ofNat (87 + n)

/-- Lowercase hexadecimal rendering of a byte list, two digits per byte. -/
def bytesToHex (bs : List Nat) : String :=
  String.mk ((bs.map (fun b => [hexDigit ((b / 16) % 16), hexDigit (b % 16)])).flatten)

/-- ASCII code points of a string, used for the test vectors below. -/
def asciiBytes (s : String) : List Nat := s.data.map Char.toNat

/-! ## Data model

The JSON event body is modelled as a structure whose `Option` fields record
which top-level keys are present; `none` stands for an absent key (JavaScript
`undefined`). -/

/-- Repository object of the event body.  The `events_url` field is the
repository event-feed URL; `isPrivate` models the JSON key `private` (a Lean
keyword), `none` standing for an absent key. -/
structure Repository where
  events_url : String
  isPrivate : Option Bool := none
deriving DecidableEq

/-- Organization object of the event body. -/
structure Organization where
  events_url : String
deriving DecidableEq

/-- Parsed JSON event body: which of the top-level keys `repository` and
`organization` are present, and their contents. -/
structure Event where
  repository : Option Repository := none
  organization : Option Organization := none
deriving DecidableEq

/-- Context object of a work item; `repoType` is absent (`none`) unless the
handler marks the item as needing private-repository access. -/
structure RequestContext where
  repoType : Option String := none
deriving DecidableEq

/-- Payload attached to the work item at line 42 of `webhook.js`. -/
structure Payload where
  body : Event
  etag : Nat
  fetchedAt : String
  type : String
  deliveryId : Option String
deriving DecidableEq

/-- Modelled from the spec: the `Request` work-item class required from
`../lib/request`, which is not under `src/`.  Spec §3 describes it as a type
tag, a target URL, a payload, a locking-requirement flag, and an optional
context flag marking private-repository access; a freshly constructed item
carries no private flag. -/
structure WorkItem where
  type : String
  url : String
  payload : Option Payload := none
  requiresLock : Bool := false
  context : RequestContext := {}
deriving DecidableEq

/-- Events-queue options: `crawlerService.options.queuing.events.provider`. -/
structure EventsOptions where
  provider : String
deriving DecidableEq

/-- Queuing options of the crawler service. -/
structure QueuingOptions where
  events : EventsOptions
deriving DecidableEq

/-- Options of the crawler service. -/
structure CrawlerOptions where
  queuing : QueuingOptions
deriving DecidableEq

/-- The external crawler/queue service.  `queueSucceeds` models whether its
asynchronous `queue(item, name)` operation fulfills (`true`) or rejects
(`false`) when called. -/
structure CrawlerService where
  options : CrawlerOptions
  queueSucceeds : Bool := true
deriving DecidableEq

/-- One inbound HTTP request.  Headers absent from the request are `none`.
`body` is the raw request body as bytes; `parsedBody` supplies the outcome of
`JSON.parse` on that body (`none` models a parse error), since JSON parsing
itself is not embedded. -/
structure Req where
  xGithubDelivery : Option String := none
  xHubSignature : Option String := none
  xGithubEvent : Option String := none
  body : List Nat := []
  parsedBody : Option Event := none
deriving DecidableEq

/-! ## Observable actions

The handler is embedded as the ordered list of observable actions it
performs.  A JavaScript exception (or a rejected promise handed to the
`promiseWrap` middleware) terminates the handler without writing a response;
it appears as a final `err` action carrying the kind of error. -/

/-- One observable action of the handler, in program order. -/
inductive Action where
  | log (level : String) (message : String)
  | enqueue (item : WorkItem) (queueName : String) (ok : Bool)
  | respond (status : Nat) (body : Option String)
  | err (message : String)
deriving DecidableEq

/-- Message of the fatal 400 response for missing headers (line 24). -/
def missingMsg : String := "Missing signature or event type on GitHub webhook"

/-- Log message of the signature-mismatch warning (line 36). -/
def mismatchMsg : String := "X-Hub-Signature does not match blob signature"

/-- Error thrown by `crypto.timingSafeEqual` when the two buffers have
different byte lengths (line 35). -/
def rangeErrorMsg : String := "RangeError: input buffers must have the same byte length"

/-- Error thrown by `JSON.parse` on a malformed body (line 39). -/
def syntaxErrorMsg : String := "SyntaxError: unexpected token in JSON"

/-- Error thrown at line 40 when neither `repository` nor `organization` is
present: reading `events_url` of `undefined`. -/
def typeErrorMsg : String := "TypeError: cannot read events_url of undefined"

/-- Rejection of the `crawlerService.queue` promise at line 49, which the
`promiseWrap` middleware propagates as a handler-level error. -/
def queueErrorMsg : String := "Error: queue rejected"

/-- JSON.stringify of a plain string (quoting only; the fixed messages used
here contain no characters that would need escaping). -/
def jsonStringifyString (s : String) : String := "\"" ++ s ++ "\""

/-- JavaScript truthiness test for a possibly-absent string header:
`undefined` and the empty string are falsy. -/
def isFalsy : Option String → Bool
  | none => true
  | some s => s == ""

/-- Template-literal rendering of a possibly-absent string:
an absent value prints as "undefined". -/
def jsTemplate : Option String → String
  | some s => s
  | none => "undefined"

/-- Line 40 of `webhook.js`: the events URL is `repository.events_url` when
`repository` is present (truthy), else `organization.events_url`; when
neither is present the access throws (`none`). -/
def eventsUrlOf (event : Event) : Option String :=
  match event.repository with
  | some repo => some repo.events_url
  | none =>
    match event.organization with
    | some org => some org.events_url
    | none => none

/-- The ignore-list of line 28. -/
def ignoredEvents : List String := ["check_run", "check_suite"]

/-- Line 34 of `webhook.js`: the signature the handler computes from the raw
body and the shared secret. -/
def computedSignatureOf (secret body : List Nat) : String :=
  "sha1=" ++ bytesToHex (hmacSha1 secret body)

/-- The `warn` helper (lines 55-60).  Note that the source passes the
function `fatal` where its unused `message` parameter was evidently meant:
the log line records the function object, and `JSON.stringify(fatal)` is
`undefined`, so `response.end` sends an empty body. -/
def warn (request : Req) : List Action :=
  [Action.log "warn" "[Function: fatal]", Action.respond 500 none]

/-- The `fatal` helper (lines 62-67): log the error and answer 400 with the
JSON-encoded error string. -/
def fatal (request : Req) (error : String) : List Action :=
  [Action.log "error" error, Action.respond 400 (some (jsonStringifyString error))]

/-- Lines 39-52 of the handler: parse the body, build the work item and hand
it to the queue, then answer 200 once the enqueue call has settled. -/
def processEvent (crawlerService : CrawlerService) (nowIso : String)
    (eventType : String) (request : Req) : List Action :=
  match request.parsedBody with
  | none => [Action.err syntaxErrorMsg]
  | some event =>
    match eventsUrlOf event with
    | none => [Action.err typeErrorMsg]
    | some eventsUrl =>
      Action.enqueue
        { type := "event_trigger"
          url := eventsUrl ++ "/" ++ jsTemplate request.xGithubDelivery
          payload := some { body := event, etag := 1, fetchedAt := nowIso,
                            type := eventType, deliveryId := request.xGithubDelivery }
          requiresLock := false
          context :=
            match event.repository with
            | some repo =>
              if repo.isPrivate = some true then { repoType := some "private" } else {}
            | none => {} }
        "events" crawlerService.queueSucceeds ::
        if crawlerService.queueSucceeds then
          [Action.log "info" "Queued", Action.respond 200 none]
        else
          [Action.err queueErrorMsg]

/-- The POST handler of `webhook.js` (lines 14-53), as the ordered list of
observable actions it performs on one request. -/
def webhookPost (crawlerService : CrawlerService) (webhookSecret : List Nat)
    (nowIso : String) (request : Req) : List Action :=
  if crawlerService.options.queuing.events.provider ≠ "webhook" then
    warn request
  else
    Action.log "verbose" "Received" ::
    if isFalsy request.xHubSignature || isFalsy request.xGithubEvent then
      fatal request missingMsg
    else if ignoredEvents.contains (request.xGithubEvent.getD "") then
      [Action.log "info" "Ignored", Action.respond 200 none]
    else if (request.xHubSignature.getD "").utf8ByteSize ≠
        (computedSignatureOf webhookSecret request.body).utf8ByteSize then
      [Action.err rangeErrorMsg]
    else
      (if request.xHubSignature.getD "" = computedSignatureOf webhookSecret request.body then []
       else [Action.log "info" mismatchMsg]) ++
      processEvent crawlerService nowIso (request.xGithubEvent.getD "") request

/-! ## Observations over a trace -/

/-- All enqueue calls of a trace, with their queue names. -/
def enqueuesOf (t : List Action) : List (WorkItem × String) :=
  t.filterMap fun a =>
    match a with
    | Action.enqueue item q _ => some (item, q)
    | _ => none

/-- Status of the first response written in a trace, if any. -/
def statusOf (t : List Action) : Option Nat :=
  t.findSome? fun a =>
    match a with
    | Action.respond s _ => some s
    | _ => none

/-- Body of the first response written in a trace, if any response exists. -/
def responseBodyOf (t : List Action) : Option (Option String) :=
  t.findSome? fun a =>
    match a with
    | Action.respond _ b => some b
    | _ => none

/-- Whether the trace ends in a thrown (or propagated) error. -/
def threw (t : List Action) : Bool :=
  t.any fun a =>
    match a with
    | Action.err _ => true
    | _ => false

/-! ## Concrete instances

Closed inputs used to instantiate the theorems below on concrete runs. -/

/-- A crawler service whose events provider is `webhook` and whose queue
accepts items. -/
def svcW : CrawlerService :=
  { options := { queuing := { events := { provider := "webhook" } } }, queueSucceeds := true }

/-- A crawler service whose events provider is `webhook` but whose queue
rejects every item. -/
def svcWFail : CrawlerService :=
  { options := { queuing := { events := { provider := "webhook" } } }, queueSucceeds := false }

/-- A crawler service configured with a non-webhook events provider. -/
def svcAmqp : CrawlerService :=
  { options := { queuing := { events := { provider := "amqp" } } }, queueSucceeds := true }

/-- A concrete shared secret. -/
def sec0 : List Nat := asciiBytes "secret"

/-- A concrete public repository. -/
def repoPub : Repository :=
  { events_url := "https://api.test/repos/o/r/events", isPrivate := some false }

/-- A concrete private repository. -/
def repoPriv : Repository :=
  { events_url := "https://api.test/repos/o/p/events", isPrivate := some true }

/-- A concrete event body with a public repository. -/
def evPub : Event := { repository := some repoPub }

/-- A concrete event body with a private repository. -/
def evPriv : Event := { repository := some repoPriv }

/-- A concrete event body with neither a repository nor an organization key. -/
def evBare : Event := {}

/-- A signature string of the right length (45 bytes) that is not the
HMAC-SHA1 signature of any of the bodies used here. -/
def wrongSig45 : String := "sha1=0000000000000000000000000000000000000000"

/-- An empty request: no headers, empty body, unparseable. -/
def reqEmpty : Req := {}

/-- A push request for a public repository whose signature has the wrong
byte length. -/
def reqShortSig : Req :=
  { xGithubDelivery := some "d1", xHubSignature := some "x",
    xGithubEvent := some "push", body := [], parsedBody := some evPub }

/-- A push request for a public repository whose signature has the right
length but the wrong value. -/
def reqWrongSig : Req :=
  { xGithubDelivery := some "d1", xHubSignature := some wrongSig45,
    xGithubEvent := some "push", body := [], parsedBody := some evPub }

/-- A correctly signed push request for a public repository. -/
def reqGood : Req :=
  { xGithubDelivery := some "d2", xHubSignature := some (computedSignatureOf sec0 []),
    xGithubEvent := some "push", body := [], parsedBody := some evPub }

/-- A correctly signed push request for a private repository. -/
def reqPriv : Req :=
  { xGithubDelivery := some "d3", xHubSignature := some (computedSignatureOf sec0 []),
    xGithubEvent := some "push", body := [], parsedBody := some evPriv }

/-- A `check_run` request with no signature header. -/
def reqCheckNoSig : Req := { xGithubEvent := some "check_run" }

/-- A `check_suite` request with an arbitrary signature header. -/
def reqCheckSig : Req :=
  { xHubSignature := some "nonsense", xGithubEvent := some "check_suite" }

/-- A request missing the event-type header. -/
def reqNoEvent : Req := { xHubSignature := some "sig", body := [1, 2, 3] }

/-- A short-signature request whose body has neither a repository nor an
organization key. -/
def reqBareShortSig : Req :=
  { xGithubDelivery := some "d4", xHubSignature := some "x",
    xGithubEvent := some "push", body := [], parsedBody := some evBare }

/-- A correctly signed request whose body has neither a repository nor an
organization key. -/
def reqBareGood : Req :=
  { xGithubDelivery := some "d5", xHubSignature := some (computedSignatureOf sec0 []),
    xGithubEvent := some "push", body := [], parsedBody := some evBare }

/-- The work item the handler builds for `reqGood`. -/
def itemGood : WorkItem :=
  { type := "event_trigger",
    url := "https://api.test/repos/o/r/events/d2",
    payload := some { body := evPub, etag := 1, fetchedAt := "t0",
                      type := "push", deliveryId := some "d2" },
    requiresLock := false,
    context := {} }

/-- The work item the handler builds for `reqPriv`. -/
def itemPriv : WorkItem :=
  { type := "event_trigger",
    url := "https://api.test/repos/o/p/events/d3",
    payload := some { body := evPriv, etag := 1, fetchedAt := "t0",
                      type := "push", deliveryId := some "d3" },
    requiresLock := false,
    context := { repoType := some "private" } }

/-- Test vector: SHA-1 of "abc" (FIPS 180-1 appendix A). -/
theorem sha1_test_abc :
    bytesToHex (sha1 (asciiBytes "abc")) = "a9993e364706816aba3e25717850c26c9cd0d89d" := by
  decide

/-- Test vector: HMAC-SHA1 with key "Jefe" (RFC 2202, test case 2). -/
theorem hmacSha1_test_jefe :
    bytesToHex (hmacSha1 (asciiBytes "Jefe") (asciiBytes "what do ya want for nothing?")) =
      "effcdf6ae5eb2fa2d27416d5f184df9c259a7c79" := by
  decide


/-- The computed signature is never the empty string. -/
theorem computedSignatureOf_ne_empty (secret body : List Nat) :
    computedSignatureOf secret body ≠ "" := by
  intro h
  have h5 : (5 : Nat) ≤ (computedSignatureOf secret body).length := by
    rw [computedSignatureOf, String.length_append]
    have e : "sha1=".length = 5 := rfl
    omega
  rw [h] at h5
  exact absurd h5 (by decide)

/-- Characterization of every run that passes the provider, header,
ignore-list and buffer-length checks: the trace is the verbose log line,
the optional mismatch log line, then the parse/build/enqueue/respond tail. -/
theorem webhookPost_verified (svc : CrawlerService) (secret : List Nat)
    (now : String) (req : Req) (sv et : String)
    (hp : svc.options.queuing.events.provider = "webhook")
    (hsig : req.xHubSignature = some sv) (hsv : sv ≠ "")
    (hevt : req.xGithubEvent = some et) (het : et ≠ "")
    (hig : et ∉ ignoredEvents)
    (hlen : sv.utf8ByteSize = (computedSignatureOf secret req.body).utf8ByteSize) :
    webhookPost svc secret now req =
      Action.log "verbose" "Received" ::
      (if sv = computedSignatureOf secret req.body then []
       else [Action.log "info" mismatchMsg]) ++
      processEvent svc now et req := by
  unfold webhookPost
  simp [hp, hsig, hevt, isFalsy, hsv, het, hig, hlen]

/-- A hexadecimal digit of a value below 16 is a lowercase hex character. -/
theorem hexDigit_mem_lower (n : Nat) (hn : n < 16) :
    hexDigit n ∈ ("0123456789abcdef").data := by
  interval_cases n <;> decide

/-- Every character of the hex rendering of a byte list is a lowercase hex
character. -/
theorem bytesToHex_lower (bs : List Nat) :
    ∀ c ∈ (bytesToHex bs).data, c ∈ ("0123456789abcdef").data := by
  intro c hc
  rw [bytesToHex] at hc
  simp only [String.data] at hc
  simp only [List.mem_flatten, List.mem_map] at hc
  obtain ⟨l, ⟨b, _, rfl⟩, hcl⟩ := hc
  simp only [List.mem_cons, List.not_mem_nil, or_false] at hcl
  rcases hcl with h | h
  · exact h ▸ hexDigit_mem_lower _ (Nat.mod_lt _ (by omega))
  · exact h ▸ hexDigit_mem_lower _ (Nat.mod_lt _ (by omega))

/-- Inversion of the handler trace at an enqueue action: an enqueue occurs
only on the success path, on the `events` queue, with the settled result of
the queue call, and the enqueued item is exactly the one built at lines
41-48 of `webhook.js`. -/
theorem enqueue_mem_inv (svc : CrawlerService) (secret : List Nat) (now : String)
    (req : Req) (item : WorkItem) (qn : String) (ok : Bool)
    (h : Action.enqueue item qn ok ∈ webhookPost svc secret now req) :
    ∃ event eventsUrl,
      req.parsedBody = some event ∧
      eventsUrlOf event = some eventsUrl ∧
      qn = "events" ∧ ok = svc.queueSucceeds ∧
      item = { type := "event_trigger",
               url := eventsUrl ++ "/" ++ jsTemplate req.xGithubDelivery,
               payload := some { body := event, etag := 1, fetchedAt := now,
                                 type := req.xGithubEvent.getD "",
                                 deliveryId := req.xGithubDelivery },
               requiresLock := false,
               context := match event.repository with
                 | some repo => if repo.isPrivate = some true
                     then { repoType := some "private" } else {}
                 | none => {} } := by
  unfold webhookPost warn fatal processEvent at h
  repeat' split at h
  all_goals simp_all

/-- Membership in `enqueuesOf` is membership of an enqueue action in the
trace. -/
theorem mem_enqueuesOf (t : List Action) (item : WorkItem) (qn : String) :
    (item, qn) ∈ enqueuesOf t ↔ ∃ ok, Action.enqueue item qn ok ∈ t := by
  rw [enqueuesOf]
  rw [List.mem_filterMap]
  constructor
  · rintro ⟨a, ha, hm⟩
    cases a with
    | log lv m => simp at hm
    | respond s b => simp at hm
    | err m => simp at hm
    | enqueue i q ok =>
      simp only [Option.some.injEq, Prod.mk.injEq] at hm
      obtain ⟨rfl, rfl⟩ := hm
      exact ⟨ok, ha⟩
  · rintro ⟨ok, hmem⟩
    exact ⟨_, hmem, rfl⟩

/-- On a run that passes every check and parses to an events URL, exactly one
enqueue call occurs. -/
theorem enqueuesOf_verified_length (svc : CrawlerService) (secret : List Nat)
    (now : String) (req : Req) (sv et : String) (ev : Event) (url : String)
    (hp : svc.options.queuing.events.provider = "webhook")
    (hsig : req.xHubSignature = some sv) (hsv : sv ≠ "")
    (hevt : req.xGithubEvent = some et) (het : et ≠ "")
    (hig : et ∉ ignoredEvents)
    (hlen : sv.utf8ByteSize = (computedSignatureOf secret req.body).utf8ByteSize)
    (hparse : req.parsedBody = some ev)
    (hurl : eventsUrlOf ev = some url) :
    (enqueuesOf (webhookPost svc secret now req)).length = 1 := by
  rw [webhookPost_verified svc secret now req sv et hp hsig hsv hevt het hig hlen]
  rcases eq_or_ne sv (computedSignatureOf secret req.body) with he | he <;>
    simp only [if_pos, if_neg, he, ite_true, ite_false, List.nil_append,
      List.cons_append, List.singleton_append] <;>
    rw [processEvent] <;>
    simp only [hparse, hurl] <;>
    cases svc.queueSucceeds <;>
    simp [enqueuesOf]

/-! ## The claims -/

/-- C2: for every secret `S` and raw body `B`, the signature the handler
computes equals `sha1=` followed by the lowercase hex HMAC-SHA1 of `B` keyed
by `S`; and for every request with a correct signature carrying a valid push
event for a public repository, exactly one enqueue call occurs, with a work
item whose `requiresLock` is false and whose context carries no
private-repository flag. -/
theorem claimC2 (svc : CrawlerService) (secret : List Nat) (now : String)
    (req : Req) (ev : Event) (repo : Repository)
    (hp : svc.options.queuing.events.provider = "webhook")
    (hsig : req.xHubSignature = some (computedSignatureOf secret req.body))
    (hevt : req.xGithubEvent = some "push")
    (hparse : req.parsedBody = some ev)
    (hrepo : ev.repository = some repo)
    (hpub : repo.isPrivate ≠ some true) :
    computedSignatureOf secret req.body =
      "sha1=" ++ bytesToHex (hmacSha1 secret req.body) ∧
    (∀ c ∈ (bytesToHex (hmacSha1 secret req.body)).data,
        c ∈ ("0123456789abcdef").data) ∧
    (enqueuesOf (webhookPost svc secret now req)).length = 1 ∧
    ∀ item qname, (item, qname) ∈ enqueuesOf (webhookPost svc secret now req) →
      item.requiresLock = false ∧ item.context.repoType = none := by
  refine ⟨rfl, bytesToHex_lower _, ?_, ?_⟩
  · exact enqueuesOf_verified_length svc secret now req _ "push" ev repo.events_url
      hp hsig (computedSignatureOf_ne_empty secret req.body) hevt (by decide)
      (by decide) rfl hparse (by rw [eventsUrlOf, hrepo])
  · intro item qname hmem
    rw [mem_enqueuesOf] at hmem
    obtain ⟨ok, hmem⟩ := hmem
    obtain ⟨event, url, h1, _, _, _, h5⟩ :=
      enqueue_mem_inv svc secret now req item qname ok hmem
    rw [hparse] at h1
    obtain rfl : ev = event := by injection h1
    refine ⟨by rw [h5], ?_⟩
    rw [h5]
    simp [hrepo, hpub]

/-- C5: with the provider configured as `webhook`, a request missing the
`x-hub-signature` header or the `x-github-event` header is answered 400,
regardless of body content. -/
theorem claimC5 (svc : CrawlerService) (secret : List Nat) (now : String)
    (req : Req)
    (hp : svc.options.queuing.events.provider = "webhook")
    (hmiss : req.xHubSignature = none ∨ req.xGithubEvent = none) :
    statusOf (webhookPost svc secret now req) = some 400 := by
  have ht : webhookPost svc secret now req =
      Action.log "verbose" "Received" :: fatal req missingMsg := by
    unfold webhookPost
    rcases hmiss with hm | hm <;> simp [hp, hm, isFalsy]
  rw [ht]
  rfl

/-- C9: a request that reaches the signature comparison with an
`x-hub-signature` whose byte length differs from that of the computed
`sha1=<hex>` string makes `crypto.timingSafeEqual` throw: the handler
terminates with an error, no enqueue call occurs and no response is
written. -/
theorem claimC9 (svc : CrawlerService) (secret : List Nat) (now : String)
    (req : Req) (sv et : String)
    (hp : svc.options.queuing.events.provider = "webhook")
    (hsig : req.xHubSignature = some sv) (hsv : sv ≠ "")
    (hevt : req.xGithubEvent = some et) (het : et ≠ "")
    (hig : et ∉ ignoredEvents)
    (hlen : sv.utf8ByteSize ≠ (computedSignatureOf secret req.body).utf8ByteSize) :
    webhookPost svc secret now req =
      [Action.log "verbose" "Received", Action.err rangeErrorMsg] ∧
    threw (webhookPost svc secret now req) = true ∧
    enqueuesOf (webhookPost svc secret now req) = [] ∧
    statusOf (webhookPost svc secret now req) = none := by
  have ht : webhookPost svc secret now req =
      [Action.log "verbose" "Received", Action.err rangeErrorMsg] := by
    unfold webhookPost
    simp [hp, hsig, hevt, isFalsy, hsv, het, hig, hlen]
  exact ⟨ht, by rw [ht]; rfl, by rw [ht]; rfl, by rw [ht]; rfl⟩

/-- C3, counterexample: a `check_run` request with a missing signature
header is answered 400, not 200 — the missing-header check at line 23 runs
before the ignore-list check at line 28. -/
theorem claimC3_counterexample :
    reqCheckNoSig.xGithubEvent = some "check_run" ∧
    reqCheckNoSig.xHubSignature = none ∧
    svcW.options.queuing.events.provider = "webhook" ∧
    statusOf (webhookPost svcW sec0 "t0" reqCheckNoSig) = some 400 ∧
    statusOf (webhookPost svcW sec0 "t0" reqCheckNoSig) ≠ some 200 := by
  decide

/-- C3, amended: with the provider configured as `webhook` and the signature
header present (and nonempty), a request whose event type is `check_run` or
`check_suite` is answered 200 with no enqueue call, even when the signature
is invalid; a missing signature header instead hits the 400 missing-header
path. -/
theorem claimC3_amended (svc : CrawlerService) (secret : List Nat)
    (now : String) (req : Req) (sv : String)
    (hp : svc.options.queuing.events.provider = "webhook")
    (hsig : req.xHubSignature = some sv) (hsv : sv ≠ "")
    (hevt : req.xGithubEvent = some "check_run" ∨
            req.xGithubEvent = some "check_suite") :
    statusOf (webhookPost svc secret now req) = some 200 ∧
    enqueuesOf (webhookPost svc secret now req) = [] := by
  have ht : webhookPost svc secret now req =
      [Action.log "verbose" "Received", Action.log "info" "Ignored",
       Action.respond 200 none] := by
    unfold webhookPost
    rcases hevt with he | he <;> simp [hp, hsig, he, isFalsy, hsv, ignoredEvents]
  exact ⟨by rw [ht]; rfl, by rw [ht]; rfl⟩

/-- C4: when the configured events provider is not `webhook`, the handler
answers 500 with no enqueue call — but with an *empty* body, because `warn`
stringifies the `fatal` function instead of its `message` parameter
(`JSON.stringify` of a function is `undefined`), so no warning payload is
carried. -/
theorem claimC4_code (svc : CrawlerService) (secret : List Nat) (now : String)
    (req : Req)
    (hp : svc.options.queuing.events.provider ≠ "webhook") :
    webhookPost svc secret now req =
      [Action.log "warn" "[Function: fatal]", Action.respond 500 none] ∧
    statusOf (webhookPost svc secret now req) = some 500 ∧
    responseBodyOf (webhookPost svc secret now req) = some none ∧
    enqueuesOf (webhookPost svc secret now req) = [] := by
  have ht : webhookPost svc secret now req = warn req := by
    unfold webhookPost
    rw [if_pos hp]
  rw [warn] at ht
  exact ⟨ht, by rw [ht]; rfl, by rw [ht]; rfl, by rw [ht]; rfl⟩

/-- C4, witness: a concrete run with provider `amqp` answers 500 with an
empty body and makes no enqueue call. -/
theorem claimC4_witness :
    statusOf (webhookPost svcAmqp sec0 "t0" reqEmpty) = some 500 ∧
    responseBodyOf (webhookPost svcAmqp sec0 "t0" reqEmpty) = some none ∧
    enqueuesOf (webhookPost svcAmqp sec0 "t0" reqEmpty) = [] :=
  ⟨(claimC4_code svcAmqp sec0 "t0" reqEmpty (by decide)).2.1,
   (claimC4_code svcAmqp sec0 "t0" reqEmpty (by decide)).2.2.1,
   (claimC4_code svcAmqp sec0 "t0" reqEmpty (by decide)).2.2.2⟩

/-- C1, counterexample: a request passing the provider and header checks
whose event type is not ignored and whose signature does not match the
computed signature, but has a different byte length, is *not* answered 200
and makes no enqueue call: `crypto.timingSafeEqual` throws. -/
theorem claimC1_counterexample :
    svcW.options.queuing.events.provider = "webhook" ∧
    reqShortSig.xHubSignature = some "x" ∧
    reqShortSig.xGithubEvent = some "push" ∧
    ("push" ∉ ignoredEvents) ∧
    some "x" ≠ some (computedSignatureOf sec0 reqShortSig.body) ∧
    statusOf (webhookPost svcW sec0 "t0" reqShortSig) ≠ some 200 ∧
    enqueuesOf (webhookPost svcW sec0 "t0" reqShortSig) = [] := by
  decide

/-- C1, amended: for a request that passes the provider and header checks,
whose event type is not ignored, whose supplied signature has the byte
length of the computed signature but differs from it, and whose body parses
with an events URL available, the mismatch is only logged: the enqueue call
is still made, and when the queue accepts the item the handler responds
200. -/
theorem claimC1_amended (svc : CrawlerService) (secret : List Nat)
    (now : String) (req : Req) (sv et : String) (ev : Event) (url : String)
    (hp : svc.options.queuing.events.provider = "webhook")
    (hsig : req.xHubSignature = some sv) (hsv : sv ≠ "")
    (hevt : req.xGithubEvent = some et) (het : et ≠ "")
    (hig : et ∉ ignoredEvents)
    (hlen : sv.utf8ByteSize = (computedSignatureOf secret req.body).utf8ByteSize)
    (hne : sv ≠ computedSignatureOf secret req.body)
    (hparse : req.parsedBody = some ev)
    (hurl : eventsUrlOf ev = some url) :
    Action.log "info" mismatchMsg ∈ webhookPost svc secret now req ∧
    (enqueuesOf (webhookPost svc secret now req)).length = 1 ∧
    (svc.queueSucceeds = true →
      statusOf (webhookPost svc secret now req) = some 200) := by
  have htr := webhookPost_verified svc secret now req sv et hp hsig hsv hevt het hig hlen
  rw [if_neg hne] at htr
  refine ⟨by rw [htr]; simp,
    enqueuesOf_verified_length svc secret now req sv et ev url
      hp hsig hsv hevt het hig hlen hparse hurl, ?_⟩
  intro hq
  rw [htr]
  simp only [processEvent, hparse, hurl, hq, List.singleton_append]
  rfl

/-- C10, counterexample: a request that passes the provider, header and
ignore-list checks, whose parsed body has neither a `repository` nor an
`organization` key, but whose signature has the wrong byte length, throws in
`crypto.timingSafeEqual` — before `JSON.parse` — not while reading
`organization.events_url`. -/
theorem claimC10_counterexample :
    reqBareShortSig.parsedBody = some evBare ∧
    evBare.repository = none ∧
    evBare.organization = none ∧
    ("push" ∉ ignoredEvents) ∧
    Action.err typeErrorMsg ∉ webhookPost svcW sec0 "t0" reqBareShortSig ∧
    webhookPost svcW sec0 "t0" reqBareShortSig =
      [Action.log "verbose" "Received", Action.err rangeErrorMsg] := by
  decide

/-- C10, amended: for a request that passes the provider, header,
ignore-list and buffer-length checks, whose parsed body has neither a
`repository` nor an `organization` key, the handler throws while reading
`organization.events_url`: no enqueue call occurs and no response is
written. -/
theorem claimC10_amended (svc : CrawlerService) (secret : List Nat)
    (now : String) (req : Req) (sv et : String) (ev : Event)
    (hp : svc.options.queuing.events.provider = "webhook")
    (hsig : req.xHubSignature = some sv) (hsv : sv ≠ "")
    (hevt : req.xGithubEvent = some et) (het : et ≠ "")
    (hig : et ∉ ignoredEvents)
    (hlen : sv.utf8ByteSize = (computedSignatureOf secret req.body).utf8ByteSize)
    (hparse : req.parsedBody = some ev)
    (hrep : ev.repository = none) (horg : ev.organization = none) :
    Action.err typeErrorMsg ∈ webhookPost svc secret now req ∧
    enqueuesOf (webhookPost svc secret now req) = [] ∧
    statusOf (webhookPost svc secret now req) = none ∧
    threw (webhookPost svc secret now req) = true := by
  have hurl : eventsUrlOf ev = none := by
    rw [eventsUrlOf]
    simp [hrep, horg]
  have htr := webhookPost_verified svc secret now req sv et hp hsig hsv hevt het hig hlen
  rcases eq_or_ne sv (computedSignatureOf secret req.body) with he | he
  · rw [if_pos he] at htr
    rw [htr]
    simp only [processEvent, hparse, hurl, List.nil_append]
    exact ⟨by simp, rfl, rfl, rfl⟩
  · rw [if_neg he] at htr
    rw [htr]
    simp only [processEvent, hparse, hurl, List.singleton_append]
    exact ⟨by simp, rfl, rfl, rfl⟩

/-- C6: every enqueued work item targets `<events_url>/<delivery_id>`, where
the events URL is `repository.events_url` when the parsed body has a
repository key and `organization.events_url` otherwise. -/
theorem claimC6 (svc : CrawlerService) (secret : List Nat) (now : String)
    (req : Req) (item : WorkItem) (qn : String) (ok : Bool) (d : String)
    (hmem : Action.enqueue item qn ok ∈ webhookPost svc secret now req)
    (hd : req.xGithubDelivery = some d) :
    ∃ event eventsUrl,
      req.parsedBody = some event ∧
      eventsUrlOf event = some eventsUrl ∧
      item.url = eventsUrl ++ "/" ++ d ∧
      (∀ repo, event.repository = some repo → eventsUrl = repo.events_url) ∧
      (event.repository = none →
        ∃ org, event.organization = some org ∧ eventsUrl = org.events_url) := by
  obtain ⟨event, url, h1, h2, _, _, h5⟩ :=
    enqueue_mem_inv svc secret now req item qn ok hmem
  refine ⟨event, url, h1, h2, ?_, ?_, ?_⟩
  · rw [h5]
    simp [jsTemplate, hd]
  · intro repo hr
    simp only [eventsUrlOf, hr, Option.some.injEq] at h2
    exact h2.symm
  · intro hnone
    simp only [eventsUrlOf, hnone] at h2
    cases horg : event.organization with
    | none => rw [horg] at h2; exact absurd h2 (by simp)
    | some org =>
      rw [horg] at h2
      exact ⟨org, rfl, (Option.some.inj h2).symm⟩

/-- C7: when the parsed body has a repository marked private, the enqueued
work item's context marks it as requiring private-repository access. -/
theorem claimC7 (svc : CrawlerService) (secret : List Nat) (now : String)
    (req : Req) (item : WorkItem) (qn : String) (ok : Bool)
    (ev : Event) (repo : Repository)
    (hmem : Action.enqueue item qn ok ∈ webhookPost svc secret now req)
    (hparse : req.parsedBody = some ev)
    (hrepo : ev.repository = some repo)
    (hpriv : repo.isPrivate = some true) :
    item.context.repoType = some "private" := by
  obtain ⟨event, url, h1, _, _, _, h5⟩ :=
    enqueue_mem_inv svc secret now req item qn ok hmem
  rw [hparse] at h1
  obtain rfl : ev = event := by injection h1
  rw [h5]
  simp [hrepo, hpriv]

set_option maxHeartbeats 1000000 in
/-- In every trace, an enqueue action (already settled) occurs strictly
before any 200 response. -/
theorem respond200_after_enqueue (svc : CrawlerService) (secret : List Nat)
    (now : String) (req : Req) (i j : Nat) (b : Option String)
    (item : WorkItem) (qn : String) (ok : Bool)
    (hi : (webhookPost svc secret now req)[i]? = some (Action.respond 200 b))
    (hj : (webhookPost svc secret now req)[j]? = some (Action.enqueue item qn ok)) :
    j < i := by
  unfold webhookPost warn fatal processEvent at hi hj
  repeat' split at hi
  all_goals try simp_all
  all_goals
    rcases j with _ | _ | _ | _ | _ | _ | j <;>
    rcases i with _ | _ | _ | _ | _ | _ | i <;>
    simp at hi hj <;>
    try omega

set_option maxHeartbeats 1000000 in
/-- If the enqueue call settles with a failure, the handler propagates an
error and never responds 200. -/
theorem queue_failure_no_200 (svc : CrawlerService) (secret : List Nat)
    (now : String) (req : Req) (item : WorkItem) (qn : String)
    (hmem : Action.enqueue item qn false ∈ webhookPost svc secret now req) :
    threw (webhookPost svc secret now req) = true ∧
    ∀ b, Action.respond 200 b ∉ webhookPost svc secret now req := by
  unfold webhookPost warn fatal processEvent at hmem ⊢
  repeat' split at hmem
  all_goals simp_all [threw]

/-- C8: the 200 response is never written before the enqueue call has
settled, and when the enqueue call fails, the handler propagates the failure
as an error and never responds 200. -/
theorem claimC8 (svc : CrawlerService) (secret : List Nat) (now : String)
    (req : Req) :
    (∀ (i j : Nat) (b : Option String) (item : WorkItem) (qn : String) (ok : Bool),
      (webhookPost svc secret now req)[i]? = some (Action.respond 200 b) →
      (webhookPost svc secret now req)[j]? = some (Action.enqueue item qn ok) →
      j < i) ∧
    (∀ (item : WorkItem) (qn : String),
      Action.enqueue item qn false ∈ webhookPost svc secret now req →
      threw (webhookPost svc secret now req) = true ∧
      ∀ b, Action.respond 200 b ∉ webhookPost svc secret now req) :=
  ⟨fun i j b item qn ok hi hj =>
      respond200_after_enqueue svc secret now req i j b item qn ok hi hj,
   fun item qn hmem => queue_failure_no_200 svc secret now req item qn hmem⟩

/-! ## Concrete witnesses -/

/-- C1, witness: a concrete run with a wrong signature of the right length
logs the mismatch, enqueues once and responds 200. -/
theorem claimC1_witness :
    Action.log "info" mismatchMsg ∈ webhookPost svcW sec0 "t0" reqWrongSig ∧
    (enqueuesOf (webhookPost svcW sec0 "t0" reqWrongSig)).length = 1 ∧
    statusOf (webhookPost svcW sec0 "t0" reqWrongSig) = some 200 :=
  have h := claimC1_amended svcW sec0 "t0" reqWrongSig wrongSig45 "push" evPub
    "https://api.test/repos/o/r/events" rfl rfl (by decide) rfl (by decide)
    (by decide) (by decide) (by decide) rfl rfl
  ⟨h.1, h.2.1, h.2.2 rfl⟩

/-- C2, witness: a concrete correctly-signed public-repository push makes
exactly one enqueue call. -/
theorem claimC2_witness :
    (enqueuesOf (webhookPost svcW sec0 "t0" reqGood)).length = 1 :=
  (claimC2 svcW sec0 "t0" reqGood evPub repoPub rfl rfl rfl rfl rfl
    (by decide)).2.2.1

/-- C3, witness: a concrete `check_suite` request with a present but invalid
signature is answered 200 with no enqueue call. -/
theorem claimC3_witness :
    statusOf (webhookPost svcW sec0 "t0" reqCheckSig) = some 200 ∧
    enqueuesOf (webhookPost svcW sec0 "t0" reqCheckSig) = [] :=
  claimC3_amended svcW sec0 "t0" reqCheckSig "nonsense" rfl rfl (by decide)
    (Or.inr rfl)

/-- C5, witness: a concrete request with a signature but no event-type
header is answered 400. -/
theorem claimC5_witness :
    statusOf (webhookPost svcW sec0 "t0" reqNoEvent) = some 400 :=
  claimC5 svcW sec0 "t0" reqNoEvent rfl (Or.inr rfl)

/-- C6, witness: the item enqueued for a concrete correctly-signed push
targets the repository events URL extended with the delivery id. -/
theorem claimC6_witness :
    ∃ event eventsUrl,
      reqGood.parsedBody = some event ∧
      eventsUrlOf event = some eventsUrl ∧
      itemGood.url = eventsUrl ++ "/" ++ "d2" ∧
      (∀ repo, event.repository = some repo → eventsUrl = repo.events_url) ∧
      (event.repository = none →
        ∃ org, event.organization = some org ∧ eventsUrl = org.events_url) :=
  claimC6 svcW sec0 "t0" reqGood itemGood "events" true "d2" (by decide) rfl

/-- C7, witness: the item enqueued for a concrete private-repository push
carries the private-repository context flag. -/
theorem claimC7_witness :
    itemPriv.context.repoType = some "private" :=
  claimC7 svcW sec0 "t0" reqPriv itemPriv "events" true evPriv repoPriv
    (by decide) rfl rfl rfl

/-- C8, witness: on a concrete successful run the enqueue action (index 1)
precedes the 200 response (index 3); on a concrete failing run the handler
propagates an error and never responds 200. -/
theorem claimC8_witness :
    (1 : Nat) < 3 ∧
    threw (webhookPost svcWFail sec0 "t0" reqGood) = true ∧
    Action.respond 200 none ∉ webhookPost svcWFail sec0 "t0" reqGood :=
  have hA := (claimC8 svcW sec0 "t0" reqGood).1 3 1 none itemGood "events" true
    (by decide) (by decide)
  have hB := (claimC8 svcWFail sec0 "t0" reqGood).2 itemGood "events" (by decide)
  ⟨hA, hB.1, hB.2 none⟩

/-- C9, witness: a concrete run whose signature has the wrong byte length
throws in the constant-time comparison, with no enqueue and no response. -/
theorem claimC9_witness :
    webhookPost svcW sec0 "t0" reqShortSig =
      [Action.log "verbose" "Received", Action.err rangeErrorMsg] ∧
    threw (webhookPost svcW sec0 "t0" reqShortSig) = true ∧
    enqueuesOf (webhookPost svcW sec0 "t0" reqShortSig) = [] ∧
    statusOf (webhookPost svcW sec0 "t0" reqShortSig) = none :=
  claimC9 svcW sec0 "t0" reqShortSig "x" "push" rfl rfl (by decide) rfl
    (by decide) (by decide) (by decide)

/-- C10, witness: a concrete correctly-signed run whose body has neither key
throws while reading the organization events URL, with no enqueue and no
response. -/
theorem claimC10_witness :
    Action.err typeErrorMsg ∈ webhookPost svcW sec0 "t0" reqBareGood ∧
    enqueuesOf (webhookPost svcW sec0 "t0" reqBareGood) = [] ∧
    statusOf (webhookPost svcW sec0 "t0" reqBareGood) = none ∧
    threw (webhookPost svcW sec0 "t0" reqBareGood) = true :=
  claimC10_amended svcW sec0 "t0" reqBareGood (computedSignatureOf sec0 [])
    "push" evBare rfl rfl (computedSignatureOf_ne_empty sec0 []) rfl
    (by decide) (by decide) rfl rfl rfl rfl

end Webhook
